import Mathlib

/-!
Shallow embedding of the notification-queue subsystem of the
`test-project-vite-hono-bullmq` repository (packages/queue): SMS job types,
template renderers, job creators, queue/worker configuration, the Salum and
Mock SMS providers, and the provider factory.  TypeScript functions are
translated into executable Lean definitions; the nondeterministic inputs of
the TypeScript code (environment variables, `fetch` outcomes, `Date.now()`,
`crypto.randomUUID()`) become explicit parameters.
-/

/-- JavaScript `a || b` on an optional string: `b` when `a` is `undefined`
or the empty string (both falsy), otherwise the string held by `a`. -/
def jsOrStr (a : Option String) (b : String) : String :=
  match a with
  | some s => if s = "" then b else s
  | none => b

/-- JavaScript `a || b` on an optional number: `b` when `a` is `undefined`
or `0` (both falsy), otherwise the number held by `a`. -/
def jsOrNat (a : Option Nat) (b : Nat) : Nat :=
  match a with
  | some p => if p = 0 then b else p
  | none => b

/-- The character class of JavaScript regex `\s` (whitespace), as used by
`salum.provider.ts`'s `phone.replace(/[\s\-\(\)]/g, '')`. -/
def isJsWhitespace (c : Char) : Bool :=
  c.toNat = 9 ∨ c.toNat = 10 ∨ c.toNat = 11 ∨ c.toNat = 12 ∨ c.toNat = 13 ∨
  c.toNat = 32 ∨ c.toNat = 0xa0 ∨ c.toNat = 0x1680 ∨
  (0x2000 ≤ c.toNat ∧ c.toNat ≤ 0x200a) ∨
  c.toNat = 0x2028 ∨ c.toNat = 0x2029 ∨ c.toNat = 0x202f ∨
  c.toNat = 0x205f ∨ c.toNat = 0x3000 ∨ c.toNat = 0xfeff

/-- A character removed by the first step of `normalizePhoneNumber`
(the regex class `[\s\-\(\)]`). -/
def isStrippedChar (c : Char) : Bool :=
  isJsWhitespace c ∨ c = '-' ∨ c = '(' ∨ c = ')'

/-- Step 2 of `normalizePhoneNumber`: `if (cleaned.startsWith('+'))
cleaned = cleaned.substring(1)`. -/
def stripLeadingPlus (l : List Char) : List Char :=
  match l with
  | '+' :: rest => rest
  | _ => l

/-- Step 3 of `normalizePhoneNumber`: `if (cleaned.startsWith('0'))
cleaned = '254' + cleaned.substring(1)`. -/
def replaceLeadingZero (l : List Char) : List Char :=
  match l with
  | '0' :: rest => '2' :: '5' :: '4' :: rest
  | _ => l

/-- Step 4 of `normalizePhoneNumber`: `if (!cleaned.startsWith('254') &&
cleaned.length === 9) cleaned = '254' + cleaned`. -/
def pad254 (l : List Char) : List Char :=
  if ¬ l.take 3 = ['2', '5', '4'] ∧ l.length = 9 then
    '2' :: '5' :: '4' :: l
  else
    l

/-- `SalumSMSProvider.normalizePhoneNumber` on the character list of the
input (salum.provider.ts, lines 105-125): remove spaces/dashes/parentheses
(the regex `[\s\-\(\)]`), drop one leading `+`, rewrite a leading `0` to
`254`, and left-pad with `254` when the result is 9 characters long and
does not already start with `254`. -/
def normalizePhoneCore (l : List Char) : List Char :=
  pad254 (replaceLeadingZero (stripLeadingPlus (l.filter (fun c => ! isStrippedChar c))))

/-- `SalumSMSProvider.normalizePhoneNumber`, wrapped at `String` type. -/
def normalizePhoneNumber (s : String) : String :=
  String.mk (normalizePhoneCore s.data)

/-- The spec's own description of the first normalization step, "strips
spaces/dashes/parentheses" — written from the spec's words for comparison
with the source's regex `[\s\-\(\)]` (which also covers the rarer Unicode
whitespace characters). -/
def stripSeparatorsSpec (s : String) : String :=
  String.mk (s.data.filter (fun c => !(c == ' ' || c == '-' || c == '(' || c == ')')))

/-- JavaScript `String.prototype.toLowerCase()` as used by the provider
factory on the `SMS_PROVIDER` value (ASCII case mapping). -/
def jsToLowerCase (s : String) : String :=
  String.mk (s.data.map Char.toLower)

/-! ## Data model (packages/queue/src/types.ts) -/

/-- `SMSRecipient` from types.ts. -/
structure SMSRecipient where
  phoneNumber : String
  name : Option String := none
deriving DecidableEq

/-- `WelcomeSMSData` (type tag `welcome` is carried by the union below). -/
structure WelcomeSMSData where
  id : String
  timestamp : Nat
  recipient : SMSRecipient
  userName : String
deriving DecidableEq

/-- `OTPSMSData`.  `expiryMinutes : number` is modelled as `Nat`. -/
structure OTPSMSData where
  id : String
  timestamp : Nat
  recipient : SMSRecipient
  code : String
  expiryMinutes : Nat
deriving DecidableEq

/-- `NotificationSMSData`.  The `metadata?: Record<string, unknown>` bag is
uninterpreted by the queue code, so it is modelled as an association list of
strings. -/
structure NotificationSMSData where
  id : String
  timestamp : Nat
  recipient : SMSRecipient
  message : String
  metadata : Option (List (String × String)) := none
deriving DecidableEq

/-- The runtime shape of `job.data` as seen by the worker.  The TypeScript
union `SMSJobData` has the three declared variants; the worker's `default`
switch case additionally handles a runtime value whose `type` tag is none of
the three (`(job.data as any).type`, possible under producer/worker version
skew), which the `unknownType` constructor represents, carrying that tag. -/
inductive SMSJobData where
  | welcome : WelcomeSMSData → SMSJobData
  | otp : OTPSMSData → SMSJobData
  | notification : NotificationSMSData → SMSJobData
  | unknownType : String → SMSJobData
deriving DecidableEq

/-- `TemplateResult` from types.ts. -/
structure TemplateResult where
  message : String
  recipient : SMSRecipient
deriving DecidableEq

/-- `JobOptions` from types.ts (all fields optional). -/
structure JobOptions where
  priority : Option Nat := none
  delay : Option Nat := none
  jobId : Option String := none
deriving DecidableEq

/-- `SMSResult` from providers/sms/interface.ts. -/
structure SMSResult where
  success : Bool
  messageId : Option String := none
  error : Option String := none
  provider : String
deriving DecidableEq

/-! ## Template renderers (packages/queue/src/templates/sms) -/

/-- `renderWelcomeSMS` (templates/sms/welcome.ts). -/
def renderWelcomeSMS (data : WelcomeSMSData) : TemplateResult :=
  { message := "Welcome to our platform, " ++ data.userName ++
      "! We\x27re excited to have you on board. Get started by exploring your dashboard.",
    recipient := data.recipient }

/-- `renderOTPSMS` (templates/sms/otp.ts). -/
def renderOTPSMS (data : OTPSMSData) : TemplateResult :=
  { message := "Your verification code is: " ++ data.code ++
      ". This code will expire in " ++ toString data.expiryMinutes ++
      " minutes. Do not share this code with anyone.",
    recipient := data.recipient }

/-- `renderNotificationSMS` (templates/sms/notification.ts): verbatim
pass-through of the payload message. -/
def renderNotificationSMS (data : NotificationSMSData) : TemplateResult :=
  { message := data.message, recipient := data.recipient }

/-! ## Salum provider (packages/queue/src/providers/sms/salum.provider.ts) -/

/-- `SalumConfig` after the constructor has resolved every field (so
`apiUrl` is no longer optional). -/
structure SalumConfig where
  apiKey : String
  partnerId : String
  shortcode : String
  apiUrl : String
deriving DecidableEq

/-- The constructor's optional `config?: Partial<SalumConfig>` argument. -/
structure PartialSalumConfig where
  apiKey : Option String := none
  partnerId : Option String := none
  shortcode : Option String := none
  apiUrl : Option String := none
deriving DecidableEq

/-- The environment variables read by the queue package. -/
structure Env where
  SMS_PROVIDER : Option String := none
  SALUM_API_KEY : Option String := none
  SALUM_PARTNER_ID : Option String := none
  SALUM_SHORTCODE : Option String := none
deriving DecidableEq

/-- `new SalumSMSProvider(config?)`: resolve each field by JavaScript `||`
fallback (constructor argument, then environment, then default), and throw —
here: return `Except.error` — when the resolved `apiKey` or `partnerId` is
empty. -/
def SalumSMSProvider.make (config : Option PartialSalumConfig) (env : Env) :
    Except String SalumConfig :=
  let cfg :=
    { apiKey := jsOrStr (config.bind (·.apiKey)) (jsOrStr env.SALUM_API_KEY "")
      partnerId := jsOrStr (config.bind (·.partnerId)) (jsOrStr env.SALUM_PARTNER_ID "")
      shortcode := jsOrStr (config.bind (·.shortcode)) (jsOrStr env.SALUM_SHORTCODE "BURETI-TEA")
      apiUrl := jsOrStr (config.bind (·.apiUrl)) "https://sms.salum.co.ke/api/services/sendsms/"
      : SalumConfig }
  if cfg.apiKey = "" ∨ cfg.partnerId = "" then
    Except.error "Salum SMS provider requires apiKey and partnerId"
  else
    Except.ok cfg

/-- One entry of the Salum API response list.  The field `resposeCode`
mirrors the wire name `respose-code` (the API's own typo). -/
structure SalumResponseEntry where
  resposeCode : Int
  responseDescription : String
  mobile : String
  messageid : Option Nat := none
deriving DecidableEq

/-- What the `fetch`/`response.json()` pair in `SalumSMSProvider.send` can
produce, made explicit: the promise rejected (`thrown`, holding
`some message` when the thrown value was an `Error` instance and `none`
otherwise), the response arrived with `response.ok` false (`httpError` with
its status), or the response arrived ok and parsed (`parsed` with the
`responses` list). -/
inductive FetchOutcome where
  | thrown : Option String → FetchOutcome
  | httpError : Nat → FetchOutcome
  | parsed : List SalumResponseEntry → FetchOutcome
deriving DecidableEq

/-- `SalumSMSProvider.send` (salum.provider.ts, lines 40-99), as a total
function of the fetch outcome.  Every `throw` inside the `try` block lands
in the `catch`, which builds a failed `SMSResult` from
`error instanceof Error ? error.message : 'Unknown error'`; so the function
never raises.  A non-ok response throws `HTTP error! status: N` and is
caught the same way.  An empty `responses` list and a provider code other
than 200 produce failed results directly, the latter with
`result['response-description'] || 'Unknown error'`. -/
def SalumSMSProvider.send (phoneNumber message : String) (outcome : FetchOutcome) :
    SMSResult :=
  let _normalizedPhone := normalizePhoneNumber phoneNumber
  let _message := message
  match outcome with
  | FetchOutcome.thrown err =>
    { success := false, error := some (err.getD "Unknown error"), provider := "salum" }
  | FetchOutcome.httpError status =>
    { success := false, error := some ("HTTP error! status: " ++ toString status),
      provider := "salum" }
  | FetchOutcome.parsed [] =>
    { success := false, error := some "No response from Salum API", provider := "salum" }
  | FetchOutcome.parsed (result :: _) =>
    if result.resposeCode = 200 then
      { success := true, messageId := result.messageid.map toString, provider := "salum" }
    else
      { success := false,
        error := some (jsOrStr (some result.responseDescription) "Unknown error"),
        provider := "salum" }

/-- The failure modes of `SalumSMSProvider.send` enumerated by the spec: a
rejected fetch/parse, a non-ok HTTP status, an empty `responses` list, and
an ok response whose first entry carries a provider code other than 200. -/
def FetchOutcome.isFailureMode : FetchOutcome → Bool
  | FetchOutcome.thrown _ => true
  | FetchOutcome.httpError _ => true
  | FetchOutcome.parsed [] => true
  | FetchOutcome.parsed (e :: _) => !(e.resposeCode == 200)

/-- `MockSMSProvider.send` (providers/sms/mock.provider.ts): always
succeeds; the generated message id `mock-${Date.now()}-${random}` is a
function of the two nondeterministic inputs, made parameters here. -/
def MockSMSProvider.send (now : Nat) (rand : String) (_phoneNumber _message : String) :
    SMSResult :=
  { success := true, messageId := some ("mock-" ++ toString now ++ "-" ++ rand),
    provider := "mock" }

/-! ## Provider factory (providers/sms/factory.ts) -/

/-- A constructed provider instance: the Mock provider carries no state, the
Salum provider carries its resolved configuration. -/
inductive SMSProviderInst where
  | mock : SMSProviderInst
  | salum : SalumConfig → SMSProviderInst
deriving DecidableEq

/-- `createSMSProvider` (providers/sms/factory.ts): select by
`process.env.SMS_PROVIDER || 'mock'` lower-cased; `salum` constructs a
`SalumSMSProvider` with no argument (which may throw), `mock` and any
unrecognized value construct the Mock provider (the latter after a
`console.warn`). -/
def createSMSProvider (env : Env) : Except String SMSProviderInst :=
  let provider := jsOrStr env.SMS_PROVIDER "mock"
  if jsToLowerCase provider = "salum" then
    (SalumSMSProvider.make none env).map SMSProviderInst.salum
  else if jsToLowerCase provider = "mock" then
    Except.ok SMSProviderInst.mock
  else
    Except.ok SMSProviderInst.mock

/-! ## Queue model and job creators (queues/sms.queue.ts, jobs/sms) -/

/-- `SMS_QUEUE_NAME` (queues/sms.queue.ts). -/
def SMS_QUEUE_NAME : String := "sms-notifications"

/-- The per-add options the job creators pass to `Queue.add`. -/
structure AddOpts where
  priority : Option Nat := none
  delay : Option Nat := none
  jobId : Option String := none
deriving DecidableEq

/-- A job record held by the queue backend. -/
structure QueuedJob where
  jobId : String
  name : String
  data : SMSJobData
  opts : AddOpts
deriving DecidableEq

/-- The queue backend's visible state: the stored jobs and the counter used
to assign ids when the caller supplies none. -/
structure QueueState where
  jobs : List QueuedJob
  nextId : Nat
deriving DecidableEq

/-- Modelled from the spec: the queue backend's `add` operation (the BullMQ
library, which is not part of this repository's sources).  Per the spec,
"if `dedupeKey` collides with an already-pending job, the enqueue is
skipped and the existing job's id is returned (idempotent enqueue)"; the
`jobId` add-option is the dedupe key, and when no custom id is supplied the
backend assigns a fresh sequential id. -/
def queueAdd (st : QueueState) (name : String) (data : SMSJobData) (opts : AddOpts) :
    String × QueueState :=
  match opts.jobId with
  | some jid =>
    if st.jobs.any (fun j => j.jobId == jid) then
      (jid, st)
    else
      (jid, { st with jobs := st.jobs ++ [{ jobId := jid, name := name, data := data, opts := opts }] })
  | none =>
    let jid := toString st.nextId
    (jid, { jobs := st.jobs ++ [{ jobId := jid, name := name, data := data, opts := opts }],
            nextId := st.nextId + 1 })

/-- What a job creator returns: `{ jobId: job.id, queueName: smsQueue.name }`. -/
structure CreateJobResult where
  jobId : String
  queueName : String
deriving DecidableEq

/-- `CreateNotificationSMSJobParams` (jobs/sms/notification.job.ts). -/
structure CreateNotificationSMSJobParams where
  recipient : SMSRecipient
  message : String
  metadata : Option (List (String × String)) := none
deriving DecidableEq

/-- `createNotificationSMSJob` (jobs/sms/notification.job.ts): build the
payload (`id: options?.jobId || crypto.randomUUID()`, `timestamp:
Date.now()`), add it to the SMS queue with the caller's priority/delay/jobId,
and return the assigned id and queue name.  The nondeterministic
`crypto.randomUUID()` and `Date.now()` are the `uuid` and `now` parameters. -/
def createNotificationSMSJob (params : CreateNotificationSMSJobParams)
    (options : JobOptions) (uuid : String) (now : Nat) (st : QueueState) :
    CreateJobResult × QueueState :=
  let jobData : NotificationSMSData :=
    { id := jsOrStr options.jobId uuid
      timestamp := now
      recipient := params.recipient
      message := params.message
      metadata := params.metadata }
  let r := queueAdd st "notification-sms" (SMSJobData.notification jobData)
    { priority := options.priority, delay := options.delay, jobId := options.jobId }
  ({ jobId := r.1, queueName := SMS_QUEUE_NAME }, r.2)

/-- `CreateWelcomeSMSJobParams` (jobs/sms/welcome.job.ts). -/
structure CreateWelcomeSMSJobParams where
  recipient : SMSRecipient
  userName : String
deriving DecidableEq

/-- `createWelcomeSMSJob` (jobs/sms/welcome.job.ts): like the notification
creator, passing the caller's priority through unchanged. -/
def createWelcomeSMSJob (params : CreateWelcomeSMSJobParams)
    (options : JobOptions) (uuid : String) (now : Nat) (st : QueueState) :
    CreateJobResult × QueueState :=
  let jobData : WelcomeSMSData :=
    { id := jsOrStr options.jobId uuid
      timestamp := now
      recipient := params.recipient
      userName := params.userName }
  let r := queueAdd st "welcome-sms" (SMSJobData.welcome jobData)
    { priority := options.priority, delay := options.delay, jobId := options.jobId }
  ({ jobId := r.1, queueName := SMS_QUEUE_NAME }, r.2)

/-- `CreateOTPSMSJobParams` (jobs/sms/otp.job.ts). -/
structure CreateOTPSMSJobParams where
  recipient : SMSRecipient
  code : String
  expiryMinutes : Nat
deriving DecidableEq

/-- `createOTPSMSJob` (jobs/sms/otp.job.ts): like the notification creator
except for `priority: options?.priority || 1` — OTP jobs default to
priority 1, and a falsy explicit `0` is likewise replaced by 1. -/
def createOTPSMSJob (params : CreateOTPSMSJobParams)
    (options : JobOptions) (uuid : String) (now : Nat) (st : QueueState) :
    CreateJobResult × QueueState :=
  let jobData : OTPSMSData :=
    { id := jsOrStr options.jobId uuid
      timestamp := now
      recipient := params.recipient
      code := params.code
      expiryMinutes := params.expiryMinutes }
  let r := queueAdd st "otp-sms" (SMSJobData.otp jobData)
    { priority := some (jsOrNat options.priority 1), delay := options.delay,
      jobId := options.jobId }
  ({ jobId := r.1, queueName := SMS_QUEUE_NAME }, r.2)

/-! ## Queue/worker configuration (config/queue-options.ts) -/

/-- BullMQ `BackoffOptions`. -/
structure BackoffOptions where
  type : String
  delay : Nat
deriving DecidableEq

/-- BullMQ `KeepJobs` (`removeOnComplete`/`removeOnFail` policies); `age` is
in seconds. -/
structure KeepJobs where
  age : Option Nat := none
  count : Option Nat := none
deriving DecidableEq

/-- The `defaultJobOptions` part of BullMQ `QueueOptions`. -/
structure DefaultJobOptions where
  attempts : Nat
  backoff : BackoffOptions
  removeOnComplete : KeepJobs
  removeOnFail : KeepJobs
deriving DecidableEq

/-- BullMQ `QueueOptions` (the part set by this repository). -/
structure QueueOptionsCfg where
  defaultJobOptions : DefaultJobOptions
deriving DecidableEq

/-- BullMQ `RateLimiterOptions`. -/
structure RateLimiterOptions where
  max : Nat
  duration : Nat
deriving DecidableEq

/-- BullMQ `WorkerOptions` (the part set by this repository). -/
structure WorkerOptionsCfg where
  concurrency : Nat
  limiter : RateLimiterOptions
deriving DecidableEq

/-- `defaultQueueOptions` (config/queue-options.ts, lines 7-22). -/
def defaultQueueOptions : QueueOptionsCfg :=
  { defaultJobOptions :=
    { attempts := 3
      backoff := { type := "exponential", delay := 2000 }
      removeOnComplete := { age := some (24 * 3600), count := some 1000 }
      removeOnFail := { age := some (7 * 24 * 3600) } } }

/-- `defaultWorkerOptions` (config/queue-options.ts, lines 27-33). -/
def defaultWorkerOptions : WorkerOptionsCfg :=
  { concurrency := 5
    limiter := { max := 10, duration := 1000 } }

/-! ## Worker (workers/sms.worker.ts) -/

/-- What a successful `processSMSJob` resolves to. -/
structure SMSProcessResult where
  success : Bool
  jobId : String
  messageId : Option String := none
  provider : String
deriving DecidableEq

/-- `processSMSJob` (workers/sms.worker.ts, lines 20-60): dispatch on
`job.data.type` to a renderer (`default` throws
`Unknown SMS job type: ...`), call the provider's `send` (abstracted as the
`send` parameter), and throw `SMS send failed: ...` when the provider
reports failure.  A `throw` is `Except.error`; note `result.error` may be
`undefined`, which JavaScript string interpolation prints as `undefined`. -/
def processSMSJob (jobId : String) (data : SMSJobData)
    (send : String → String → SMSResult) : Except String SMSProcessResult :=
  let afterTemplate (templateResult : TemplateResult) : Except String SMSProcessResult :=
    let result := send templateResult.recipient.phoneNumber templateResult.message
    if result.success then
      Except.ok { success := true, jobId := jobId, messageId := result.messageId,
                  provider := result.provider }
    else
      Except.error ("SMS send failed: " ++ result.error.getD "undefined")
  match data with
  | SMSJobData.welcome d => afterTemplate (renderWelcomeSMS d)
  | SMSJobData.otp d => afterTemplate (renderOTPSMS d)
  | SMSJobData.notification d => afterTemplate (renderNotificationSMS d)
  | SMSJobData.unknownType t => Except.error ("Unknown SMS job type: " ++ t)

/-- Modelled from the spec: the queue library's per-job retry loop (BullMQ,
not part of this repository's sources).  Per the spec, "a thrown/propagated
error during render or send causes the job to be considered failed for this
attempt" and the job is re-attempted "up to 3 attempts total per job"
(`attempts` in `defaultQueueOptions`); an error thrown by the processor
carries no unrecoverable marker, so every thrown error consumes one attempt
and the job is terminally failed only after the attempt budget is spent.
`runAttempts proc firstIdx budget` runs `proc` on attempt numbers
`firstIdx, firstIdx+1, ...` until success or exhaustion, returning how many
attempts were performed and the final outcome. -/
def runAttempts (proc : Nat → Except String SMSProcessResult) :
    Nat → Nat → Nat × Except String SMSProcessResult
  | _, 0 => (0, Except.error "no attempts configured")
  | i, budget + 1 =>
    match proc i with
    | Except.ok a => (1, Except.ok a)
    | Except.error e =>
      if budget = 0 then
        (1, Except.error e)
      else
        let rest := runAttempts proc (i + 1) budget
        (rest.1 + 1, rest.2)

/-- The number of attempts a job consumes under the retry policy before it
completes or is terminally failed. -/
def attemptsUsed (proc : Nat → Except String SMSProcessResult) (maxAttempts : Nat) : Nat :=
  (runAttempts proc 1 maxAttempts).1

/-! ## Helper lemmas -/

theorem String.append_ne_empty_left (a b : String) (h : a ≠ "") : a ++ b ≠ "" := by
  intro he
  apply h
  have hd := congrArg String.data he
  rw [String.data_append] at hd
  exact String.ext (List.append_eq_nil.mp hd).1

theorem jsOrStr_none (b : String) : jsOrStr none b = b := rfl

theorem jsOrStr_some_ne_empty (s d : String) (hd : d ≠ "") : jsOrStr (some s) d ≠ "" := by
  unfold jsOrStr
  by_cases hs : s = ""
  · simp [hs, hd]
  · simp [hs]

theorem runAttempts_all_error (proc : Nat → Except String SMSProcessResult)
    (h : ∀ i, ∃ e, proc i = Except.error e) :
    ∀ budget i, budget ≠ 0 → (runAttempts proc i budget).1 = budget := by
  intro budget
  induction budget with
  | zero => intro i hi; exact absurd rfl hi
  | succ n ih =>
    intro i _
    obtain ⟨e, he⟩ := h i
    unfold runAttempts
    rw [he]
    by_cases hn : n = 0
    · simp [hn]
    · simp only [hn, if_false, ih (i + 1) hn]

/-! ## Claims -/

/-- C5: The default queue and worker configuration equals the specified
policy exactly: at most 3 attempts per job, exponential backoff starting at
a 2000 ms delay, completed jobs kept 24 hours (86400 s) bounded to the most
recent 1000, failed jobs kept 7 days (604800 s), worker concurrency 5, and
a rate limit of at most 10 jobs per 1000 ms. -/
theorem default_options_match_policy :
    defaultQueueOptions.defaultJobOptions.attempts = 3 ∧
    defaultQueueOptions.defaultJobOptions.backoff.type = "exponential" ∧
    defaultQueueOptions.defaultJobOptions.backoff.delay = 2000 ∧
    defaultQueueOptions.defaultJobOptions.removeOnComplete.age = some (24 * 60 * 60) ∧
    defaultQueueOptions.defaultJobOptions.removeOnComplete.count = some 1000 ∧
    defaultQueueOptions.defaultJobOptions.removeOnFail.age = some (7 * 24 * 60 * 60) ∧
    defaultWorkerOptions.concurrency = 5 ∧
    defaultWorkerOptions.limiter.max = 10 ∧
    defaultWorkerOptions.limiter.duration = 1000 := by
  refine ⟨rfl, rfl, rfl, ?_, rfl, ?_, rfl, rfl, rfl⟩ <;> decide

/-- C7: For every OTP job payload the rendered message contains the
one-time code and the decimal rendering of `expiryMinutes` as substrings;
in particular, for code `123456` and 10 expiry minutes it contains both
`123456` and `10`. -/
theorem renderOTPSMS_contains_code_and_expiry :
    (∀ d : OTPSMSData,
      (∃ a b, a ++ d.code ++ b = (renderOTPSMS d).message) ∧
      (∃ a b, a ++ toString d.expiryMinutes ++ b = (renderOTPSMS d).message)) ∧
    (∀ i t r,
      (∃ a b, a ++ "123456" ++ b =
        (renderOTPSMS { id := i, timestamp := t, recipient := r, code := "123456",
                        expiryMinutes := 10 }).message) ∧
      (∃ a b, a ++ "10" ++ b =
        (renderOTPSMS { id := i, timestamp := t, recipient := r, code := "123456",
                        expiryMinutes := 10 }).message)) := by
  constructor
  · intro d
    constructor
    · exact ⟨"Your verification code is: ",
        ". This code will expire in " ++ toString d.expiryMinutes ++
          " minutes. Do not share this code with anyone.",
        by simp [renderOTPSMS, String.append_assoc]⟩
    · exact ⟨"Your verification code is: " ++ d.code ++ ". This code will expire in ",
        " minutes. Do not share this code with anyone.",
        by simp [renderOTPSMS, String.append_assoc]⟩
  · intro i t r
    constructor
    · exact ⟨"Your verification code is: ",
        ". This code will expire in 10 minutes. Do not share this code with anyone.",
        by simp only [renderOTPSMS]; decide⟩
    · exact ⟨"Your verification code is: 123456. This code will expire in ",
        " minutes. Do not share this code with anyone.",
        by simp only [renderOTPSMS]; decide⟩

/-- C9: Each template renderer is a pure function of its payload — in this
embedding the renderers are total functions of the job data alone, and
their output is determined by the payload fields they read: it does not
change when the envelope bookkeeping fields (`id`, `timestamp`) or, for the
notification renderer, the uninterpreted `metadata` bag vary. Calling a
renderer twice on identical input therefore yields identical output. -/
theorem renderers_pure_deterministic :
    (∀ (i₁ : String) (t₁ : Nat) (i₂ : String) (t₂ : Nat) (r : SMSRecipient) (u : String),
      renderWelcomeSMS { id := i₁, timestamp := t₁, recipient := r, userName := u } =
      renderWelcomeSMS { id := i₂, timestamp := t₂, recipient := r, userName := u }) ∧
    (∀ (i₁ : String) (t₁ : Nat) (i₂ : String) (t₂ : Nat) (r : SMSRecipient)
        (c : String) (e : Nat),
      renderOTPSMS { id := i₁, timestamp := t₁, recipient := r, code := c,
                     expiryMinutes := e } =
      renderOTPSMS { id := i₂, timestamp := t₂, recipient := r, code := c,
                     expiryMinutes := e }) ∧
    (∀ (i₁ : String) (t₁ : Nat) (i₂ : String) (t₂ : Nat) (r : SMSRecipient)
        (m : String) (md₁ md₂ : Option (List (String × String))),
      renderNotificationSMS { id := i₁, timestamp := t₁, recipient := r, message := m,
                              metadata := md₁ } =
      renderNotificationSMS { id := i₂, timestamp := t₂, recipient := r, message := m,
                              metadata := md₂ }) :=
  ⟨fun _ _ _ _ _ _ => rfl, fun _ _ _ _ _ _ _ => rfl, fun _ _ _ _ _ _ _ _ => rfl⟩

/-- C2: `SalumSMSProvider.send` never raises — in this embedding it is a
total function into `SMSResult` for every fetch outcome, because every
`throw` in the source lands in the surrounding `catch` — and on each of the
four failure modes (rejected fetch/parse, non-ok HTTP status, empty
response list, provider code other than 200) it returns `success = false`
with a non-empty error description.  The only caveat is the thrown-`Error`
case, whose description is the error's own message; JavaScript runtime
errors carry non-empty messages, which the `hmsg` hypothesis records. -/
theorem salum_send_failure_modes (phone msg : String) (o : FetchOutcome)
    (hfail : o.isFailureMode = true)
    (hmsg : ∀ s, o = FetchOutcome.thrown (some s) → s ≠ "") :
    (SalumSMSProvider.send phone msg o).success = false ∧
    ∃ e, (SalumSMSProvider.send phone msg o).error = some e ∧ e ≠ "" := by
  cases o with
  | thrown err =>
    cases err with
    | none => exact ⟨rfl, "Unknown error", rfl, by decide⟩
    | some s => exact ⟨rfl, s, rfl, hmsg s rfl⟩
  | httpError status =>
    exact ⟨rfl, "HTTP error! status: " ++ toString status, rfl,
      String.append_ne_empty_left _ _ (by decide)⟩
  | parsed entries =>
    cases entries with
    | nil => exact ⟨rfl, "No response from Salum API", rfl, by decide⟩
    | cons e rest =>
      have hne : ¬ e.resposeCode = 200 := by
        simpa [FetchOutcome.isFailureMode] using hfail
      refine ⟨?_, jsOrStr (some e.responseDescription) "Unknown error", ?_, ?_⟩
      · simp [SalumSMSProvider.send, hne]
      · simp [SalumSMSProvider.send, hne]
      · exact jsOrStr_some_ne_empty _ _ (by decide)

/-- Witness for C2 at a concrete failure (HTTP status 500). -/
theorem salum_send_failure_modes_witness :
    (SalumSMSProvider.send "0712345678" "hello" (FetchOutcome.httpError 500)).success = false ∧
    ∃ e, (SalumSMSProvider.send "0712345678" "hello" (FetchOutcome.httpError 500)).error
          = some e ∧ e ≠ "" :=
  salum_send_failure_modes "0712345678" "hello" (FetchOutcome.httpError 500)
    (by decide) (fun s h => by cases h)

/-- C6: provider-factory construction with an unrecognized or absent
`SMS_PROVIDER` (anything whose lower-casing is not `salum`) always succeeds
and yields the Mock provider; when `salum` is selected, construction
succeeds exactly when both mandatory credentials (`apiKey` and `partnerId`,
after environment fallback) are present and non-empty, and otherwise throws
the constructor's error. -/
theorem createSMSProvider_selection (env : Env) :
    (jsToLowerCase (jsOrStr env.SMS_PROVIDER "mock") ≠ "salum" →
      createSMSProvider env = Except.ok SMSProviderInst.mock) ∧
    (jsToLowerCase (jsOrStr env.SMS_PROVIDER "mock") = "salum" →
      ((jsOrStr env.SALUM_API_KEY "" ≠ "" ∧ jsOrStr env.SALUM_PARTNER_ID "" ≠ "") →
        ∃ cfg, createSMSProvider env = Except.ok (SMSProviderInst.salum cfg)) ∧
      ((jsOrStr env.SALUM_API_KEY "" = "" ∨ jsOrStr env.SALUM_PARTNER_ID "" = "") →
        createSMSProvider env =
          Except.error "Salum SMS provider requires apiKey and partnerId")) := by
  constructor
  · intro hne
    unfold createSMSProvider
    rw [if_neg hne]
    split <;> rfl
  · intro hp
    constructor
    · rintro ⟨hk, hpid⟩
      refine ⟨{ apiKey := jsOrStr env.SALUM_API_KEY ""
                partnerId := jsOrStr env.SALUM_PARTNER_ID ""
                shortcode := jsOrStr env.SALUM_SHORTCODE "BURETI-TEA"
                apiUrl := "https://sms.salum.co.ke/api/services/sendsms/" }, ?_⟩
      unfold createSMSProvider
      rw [if_pos hp]
      unfold SalumSMSProvider.make
      simp [jsOrStr_none, hk, hpid, Except.map]
    · intro hbad
      unfold createSMSProvider
      rw [if_pos hp]
      unfold SalumSMSProvider.make
      rcases hbad with h | h <;> simp [jsOrStr_none, h, Except.map]

/-- Witness for C6: a concrete unrecognized provider value falls back to
Mock, and a concrete `salum` selection with both credentials present
constructs the Salum provider. -/
theorem createSMSProvider_selection_witness :
    createSMSProvider { SMS_PROVIDER := some "whatsapp" } = Except.ok SMSProviderInst.mock ∧
    ∃ cfg, createSMSProvider
        { SMS_PROVIDER := some "Salum", SALUM_API_KEY := some "k",
          SALUM_PARTNER_ID := some "p" } = Except.ok (SMSProviderInst.salum cfg) :=
  ⟨(createSMSProvider_selection { SMS_PROVIDER := some "whatsapp" }).1 (by decide),
   ((createSMSProvider_selection
      { SMS_PROVIDER := some "Salum", SALUM_API_KEY := some "k",
        SALUM_PARTNER_ID := some "p" }).2 (by decide)).1 (by decide)⟩

theorem queueAdd_mem (st : QueueState) (name : String) (data : SMSJobData)
    (opts : AddOpts) (j : QueuedJob)
    (hj : j ∈ (queueAdd st name data opts).2.jobs) : j ∈ st.jobs ∨ j.opts = opts := by
  unfold queueAdd at hj
  cases ho : opts.jobId with
  | some jid =>
    rw [ho] at hj
    dsimp only at hj
    split at hj
    · exact Or.inl hj
    · rcases List.mem_append.mp hj with h | h
      · exact Or.inl h
      · rcases List.mem_singleton.mp h with rfl
        exact Or.inr rfl
  | none =>
    rw [ho] at hj
    dsimp only at hj
    rcases List.mem_append.mp hj with h | h
    · exact Or.inl h
    · rcases List.mem_singleton.mp h with rfl
      exact Or.inr rfl

theorem jsOrNat_ne_zero (a : Option Nat) : jsOrNat a 1 ≠ 0 := by
  unfold jsOrNat
  cases a with
  | none => decide
  | some p =>
    by_cases hp : p = 0
    · simp [hp]
    · simp [hp]

/-- C8: a `createOTPSMSJob` call with no priority option enqueues its job at
the most-urgent tier, priority 1 (`options?.priority || 1`), while the
welcome and notification creators pass the caller's priority through
unchanged (absent a caller value the neutral backend default applies).
Stated about every job the call adds to the queue state. -/
theorem job_creators_priority_defaults :
    (∀ (params : CreateOTPSMSJobParams) (options : JobOptions) (uuid : String) (now : Nat)
        (st : QueueState), options.priority = none →
      ∀ j ∈ (createOTPSMSJob params options uuid now st).2.jobs,
        j ∈ st.jobs ∨ j.opts.priority = some 1) ∧
    (∀ (params : CreateWelcomeSMSJobParams) (options : JobOptions) (uuid : String) (now : Nat)
        (st : QueueState),
      ∀ j ∈ (createWelcomeSMSJob params options uuid now st).2.jobs,
        j ∈ st.jobs ∨ j.opts.priority = options.priority) ∧
    (∀ (params : CreateNotificationSMSJobParams) (options : JobOptions) (uuid : String)
        (now : Nat) (st : QueueState),
      ∀ j ∈ (createNotificationSMSJob params options uuid now st).2.jobs,
        j ∈ st.jobs ∨ j.opts.priority = options.priority) := by
  refine ⟨?_, ?_, ?_⟩
  · intro params options uuid now st hpri j hj
    rcases queueAdd_mem _ _ _ _ _ hj with h | h
    · exact Or.inl h
    · rw [h, hpri]
      exact Or.inr rfl
  · intro params options uuid now st j hj
    rcases queueAdd_mem _ _ _ _ _ hj with h | h
    · exact Or.inl h
    · rw [h]
      exact Or.inr rfl
  · intro params options uuid now st j hj
    rcases queueAdd_mem _ _ _ _ _ hj with h | h
    · exact Or.inl h
    · rw [h]
      exact Or.inr rfl

/-- Witness for C8: on an empty queue, an OTP creation with no options adds
the job with priority 1 (and the added job is not a pre-existing one). -/
theorem job_creators_priority_defaults_witness :
    QueuedJob.mk "1" "otp-sms"
        (SMSJobData.otp (OTPSMSData.mk "u" 0 (SMSRecipient.mk "0712345678" none) "123456" 10))
        (AddOpts.mk (some 1) none none) ∈ (QueueState.mk [] 1).jobs ∨
    (QueuedJob.mk "1" "otp-sms"
        (SMSJobData.otp (OTPSMSData.mk "u" 0 (SMSRecipient.mk "0712345678" none) "123456" 10))
        (AddOpts.mk (some 1) none none)).opts.priority = some 1 :=
  job_creators_priority_defaults.1
    (CreateOTPSMSJobParams.mk (SMSRecipient.mk "0712345678" none) "123456" 10)
    (JobOptions.mk none none none) "u" 0 (QueueState.mk [] 1) rfl _ (by decide)

/-- C10: `createOTPSMSJob` replaces an explicitly supplied priority 0 by 1
(`0` is falsy, so `options?.priority || 1` yields 1), and consequently no
job it adds to the queue ever carries priority 0. -/
theorem createOTPSMSJob_priority_never_zero :
    (∀ (params : CreateOTPSMSJobParams) (options : JobOptions) (uuid : String) (now : Nat)
        (st : QueueState), options.priority = some 0 →
      ∀ j ∈ (createOTPSMSJob params options uuid now st).2.jobs,
        j ∈ st.jobs ∨ j.opts.priority = some 1) ∧
    (∀ (params : CreateOTPSMSJobParams) (options : JobOptions) (uuid : String) (now : Nat)
        (st : QueueState),
      ∀ j ∈ (createOTPSMSJob params options uuid now st).2.jobs,
        j ∈ st.jobs ∨ j.opts.priority ≠ some 0) := by
  constructor
  · intro params options uuid now st hpri j hj
    rcases queueAdd_mem _ _ _ _ _ hj with h | h
    · exact Or.inl h
    · rw [h, hpri]
      exact Or.inr rfl
  · intro params options uuid now st j hj
    rcases queueAdd_mem _ _ _ _ _ hj with h | h
    · exact Or.inl h
    · refine Or.inr ?_
      rw [h]
      intro hz
      exact jsOrNat_ne_zero options.priority (Option.some_injective _ hz)

/-- Witness for C10: on an empty queue, an OTP creation that explicitly
passes priority 0 adds the job with priority 1. -/
theorem createOTPSMSJob_priority_never_zero_witness :
    QueuedJob.mk "9" "otp-sms"
        (SMSJobData.otp (OTPSMSData.mk "v" 5 (SMSRecipient.mk "0700000001" none) "000111" 5))
        (AddOpts.mk (some 1) none none) ∈ (QueueState.mk [] 9).jobs ∨
    (QueuedJob.mk "9" "otp-sms"
        (SMSJobData.otp (OTPSMSData.mk "v" 5 (SMSRecipient.mk "0700000001" none) "000111" 5))
        (AddOpts.mk (some 1) none none)).opts.priority = some 1 :=
  createOTPSMSJob_priority_never_zero.1
    (CreateOTPSMSJobParams.mk (SMSRecipient.mk "0700000001" none) "000111" 5)
    (JobOptions.mk (some 0) none none) "v" 5 (QueueState.mk [] 9) rfl _ (by decide)

theorem queueAdd_some_absent (st : QueueState) (name : String) (data : SMSJobData)
    (opts : AddOpts) (k : String) (hk : opts.jobId = some k)
    (habs : st.jobs.any (fun j => j.jobId == k) = false) :
    queueAdd st name data opts =
      (k, { st with jobs := st.jobs ++ [QueuedJob.mk k name data opts] }) := by
  unfold queueAdd
  rw [hk]
  simp [habs]

theorem queueAdd_some_present (st : QueueState) (name : String) (data : SMSJobData)
    (opts : AddOpts) (k : String) (hk : opts.jobId = some k)
    (hpres : st.jobs.any (fun j => j.jobId == k) = true) :
    queueAdd st name data opts = (k, st) := by
  unfold queueAdd
  rw [hk]
  simp [hpres]

/-- C4: enqueue is idempotent under the dedupe key.  Calling
`createNotificationSMSJob` twice with the same `jobId` option while the
first job is still pending returns the same job id both times, leaves the
queue unchanged on the second call, and the queue holds exactly one job
under that id. -/
theorem createNotificationSMSJob_idempotent (params : CreateNotificationSMSJobParams)
    (options : JobOptions) (uuid1 uuid2 : String) (now1 now2 : Nat) (st : QueueState)
    (k : String) (hk : options.jobId = some k)
    (habs : st.jobs.any (fun j => j.jobId == k) = false) :
    (createNotificationSMSJob params options uuid1 now1 st).1.jobId = k ∧
    (createNotificationSMSJob params options uuid2 now2
        (createNotificationSMSJob params options uuid1 now1 st).2).1.jobId = k ∧
    (createNotificationSMSJob params options uuid2 now2
        (createNotificationSMSJob params options uuid1 now1 st).2).2 =
      (createNotificationSMSJob params options uuid1 now1 st).2 ∧
    ((createNotificationSMSJob params options uuid1 now1 st).2.jobs.filter
        (fun j => j.jobId == k)).length = 1 := by
  have hopts : (AddOpts.mk options.priority options.delay options.jobId).jobId = some k := hk
  have h1 := queueAdd_some_absent st "notification-sms"
    (SMSJobData.notification
      (NotificationSMSData.mk (jsOrStr options.jobId uuid1) now1 params.recipient
        params.message params.metadata))
    (AddOpts.mk options.priority options.delay options.jobId) k hopts habs
  have hr1 : createNotificationSMSJob params options uuid1 now1 st =
      ({ jobId := k, queueName := SMS_QUEUE_NAME },
       { st with jobs := st.jobs ++
          [QueuedJob.mk k "notification-sms"
            (SMSJobData.notification
              (NotificationSMSData.mk (jsOrStr options.jobId uuid1) now1 params.recipient
                params.message params.metadata))
            (AddOpts.mk options.priority options.delay options.jobId)] }) := by
    unfold createNotificationSMSJob
    dsimp only
    rw [h1]
  have hpres : ({ st with jobs := st.jobs ++
      [QueuedJob.mk k "notification-sms"
        (SMSJobData.notification
          (NotificationSMSData.mk (jsOrStr options.jobId uuid1) now1 params.recipient
            params.message params.metadata))
        (AddOpts.mk options.priority options.delay options.jobId)] } : QueueState).jobs.any
      (fun j => j.jobId == k) = true := by
    simp
  have h2 := queueAdd_some_present
    ({ st with jobs := st.jobs ++
      [QueuedJob.mk k "notification-sms"
        (SMSJobData.notification
          (NotificationSMSData.mk (jsOrStr options.jobId uuid1) now1 params.recipient
            params.message params.metadata))
        (AddOpts.mk options.priority options.delay options.jobId)] })
    "notification-sms"
    (SMSJobData.notification
      (NotificationSMSData.mk (jsOrStr options.jobId uuid2) now2 params.recipient
        params.message params.metadata))
    (AddOpts.mk options.priority options.delay options.jobId) k hopts hpres
  have hr2 : ∀ st2 : QueueState, st2.jobs.any (fun j => j.jobId == k) = true →
      createNotificationSMSJob params options uuid2 now2 st2 =
        ({ jobId := k, queueName := SMS_QUEUE_NAME }, st2) := by
    intro st2 hp2
    unfold createNotificationSMSJob
    dsimp only
    rw [queueAdd_some_present st2 "notification-sms" _ _ k hopts hp2]
  have hfilter : (st.jobs.filter (fun j => j.jobId == k)) = [] :=
    List.filter_eq_nil_iff.mpr (fun j hj => by
      have := List.any_eq_false.mp habs j hj
      simpa using this)
  refine ⟨by rw [hr1], ?_, ?_, ?_⟩
  · rw [hr1]
    rw [hr2 _ hpres]
  · rw [hr1]
    rw [hr2 _ hpres]
  · rw [hr1]
    simp [List.filter_append, hfilter]

/-- Witness for C4 at a concrete call: dedupe key `job-1` on an empty
queue. -/
theorem createNotificationSMSJob_idempotent_witness :
    (createNotificationSMSJob
      (CreateNotificationSMSJobParams.mk (SMSRecipient.mk "0712345678" none) "hi" none)
      (JobOptions.mk none none (some "job-1")) "u1" 0 (QueueState.mk [] 1)).1.jobId = "job-1" ∧
    (createNotificationSMSJob
      (CreateNotificationSMSJobParams.mk (SMSRecipient.mk "0712345678" none) "hi" none)
      (JobOptions.mk none none (some "job-1")) "u2" 7
      (createNotificationSMSJob
        (CreateNotificationSMSJobParams.mk (SMSRecipient.mk "0712345678" none) "hi" none)
        (JobOptions.mk none none (some "job-1")) "u1" 0 (QueueState.mk [] 1)).2).1.jobId
      = "job-1" ∧
    (createNotificationSMSJob
      (CreateNotificationSMSJobParams.mk (SMSRecipient.mk "0712345678" none) "hi" none)
      (JobOptions.mk none none (some "job-1")) "u2" 7
      (createNotificationSMSJob
        (CreateNotificationSMSJobParams.mk (SMSRecipient.mk "0712345678" none) "hi" none)
        (JobOptions.mk none none (some "job-1")) "u1" 0 (QueueState.mk [] 1)).2).2 =
      (createNotificationSMSJob
        (CreateNotificationSMSJobParams.mk (SMSRecipient.mk "0712345678" none) "hi" none)
        (JobOptions.mk none none (some "job-1")) "u1" 0 (QueueState.mk [] 1)).2 ∧
    ((createNotificationSMSJob
        (CreateNotificationSMSJobParams.mk (SMSRecipient.mk "0712345678" none) "hi" none)
        (JobOptions.mk none none (some "job-1")) "u1" 0 (QueueState.mk [] 1)).2.jobs.filter
      (fun j => j.jobId == "job-1")).length = 1 :=
  createNotificationSMSJob_idempotent
    (CreateNotificationSMSJobParams.mk (SMSRecipient.mk "0712345678" none) "hi" none)
    (JobOptions.mk none none (some "job-1")) "u1" "u2" 0 7 (QueueState.mk [] 1)
    "job-1" rfl (by decide)

/-- C3 counterexample: the claim says an unknown-kind job "is fatal for
that job and not retried ... unlike a transient send failure".  The worker
throws a plain error (`Unknown SMS job type: ...`) with no unrecoverable
marker, so under the configured retry policy (`attempts = 3`) the job is
attempted 3 times, not 1 — it IS re-attempted, exactly like a transient
send failure. -/
theorem unknown_job_type_retried_counterexample :
    processSMSJob "42" (SMSJobData.unknownType "sms-v2") (MockSMSProvider.send 0 "r") =
      Except.error "Unknown SMS job type: sms-v2" ∧
    attemptsUsed
      (fun _ => processSMSJob "42" (SMSJobData.unknownType "sms-v2")
        (MockSMSProvider.send 0 "r"))
      defaultQueueOptions.defaultJobOptions.attempts = 3 ∧
    ¬ attemptsUsed
      (fun _ => processSMSJob "42" (SMSJobData.unknownType "sms-v2")
        (MockSMSProvider.send 0 "r"))
      defaultQueueOptions.defaultJobOptions.attempts = 1 :=
  ⟨rfl, rfl, by decide⟩

/-- C3 amended: processing a job whose `data.type` is not one of the three
known kinds fails with an `Unknown SMS job type` error, and the job is
re-attempted under the same retry policy as a transient send failure — both
consume the full 3-attempt budget before the job is terminally failed. -/
theorem unknown_job_type_fails_and_is_retried (jobId t : String)
    (send failSend : String → String → SMSResult)
    (hfail : ∀ p m, (failSend p m).success = false) (d : WelcomeSMSData) :
    processSMSJob jobId (SMSJobData.unknownType t) send =
      Except.error ("Unknown SMS job type: " ++ t) ∧
    attemptsUsed (fun _ => processSMSJob jobId (SMSJobData.unknownType t) send)
      defaultQueueOptions.defaultJobOptions.attempts = 3 ∧
    attemptsUsed (fun _ => processSMSJob jobId (SMSJobData.welcome d) failSend)
      defaultQueueOptions.defaultJobOptions.attempts =
      attemptsUsed (fun _ => processSMSJob jobId (SMSJobData.unknownType t) send)
        defaultQueueOptions.defaultJobOptions.attempts := by
  have hu : ∀ i : Nat, ∃ e, processSMSJob jobId (SMSJobData.unknownType t) send =
      Except.error e := fun _ => ⟨_, rfl⟩
  have hw : ∀ i : Nat, ∃ e, processSMSJob jobId (SMSJobData.welcome d) failSend =
      Except.error e := fun _ =>
    ⟨"SMS send failed: " ++ (failSend (renderWelcomeSMS d).recipient.phoneNumber
        (renderWelcomeSMS d).message).error.getD "undefined",
     by simp [processSMSJob, hfail]⟩
  have h3u : attemptsUsed (fun _ => processSMSJob jobId (SMSJobData.unknownType t) send)
      defaultQueueOptions.defaultJobOptions.attempts = 3 :=
    runAttempts_all_error _ hu 3 1 (by decide)
  have h3w : attemptsUsed (fun _ => processSMSJob jobId (SMSJobData.welcome d) failSend)
      defaultQueueOptions.defaultJobOptions.attempts = 3 :=
    runAttempts_all_error _ hw 3 1 (by decide)
  exact ⟨rfl, h3u, h3w.trans h3u.symm⟩

/-- Witness for the amended C3 at concrete inputs. -/
theorem unknown_job_type_fails_and_is_retried_witness :
    processSMSJob "42" (SMSJobData.unknownType "promo") (MockSMSProvider.send 0 "r") =
      Except.error ("Unknown SMS job type: " ++ "promo") ∧
    attemptsUsed
      (fun _ => processSMSJob "42" (SMSJobData.unknownType "promo")
        (MockSMSProvider.send 0 "r"))
      defaultQueueOptions.defaultJobOptions.attempts = 3 ∧
    attemptsUsed
      (fun _ => processSMSJob "42"
        (SMSJobData.welcome (WelcomeSMSData.mk "i" 0 (SMSRecipient.mk "0712345678" none) "Bob"))
        (fun _ _ => SMSResult.mk false none (some "boom") "mock"))
      defaultQueueOptions.defaultJobOptions.attempts =
      attemptsUsed
        (fun _ => processSMSJob "42" (SMSJobData.unknownType "promo")
          (MockSMSProvider.send 0 "r"))
        defaultQueueOptions.defaultJobOptions.attempts :=
  unknown_job_type_fails_and_is_retried "42" "promo" (MockSMSProvider.send 0 "r")
    (fun _ _ => SMSResult.mk false none (some "boom") "mock") (fun _ _ => rfl)
    (WelcomeSMSData.mk "i" 0 (SMSRecipient.mk "0712345678" none) "Bob")

theorem isDigit_toNat_range (c : Char) (h : c.isDigit = true) :
    48 ≤ c.toNat ∧ c.toNat ≤ 57 := by
  unfold Char.isDigit at h
  rw [Bool.and_eq_true, decide_eq_true_eq, decide_eq_true_eq] at h
  exact ⟨h.1, h.2⟩

theorem isStrippedChar_false_of_isDigit (c : Char) (h : c.isDigit = true) :
    isStrippedChar c = false := by
  have hr := isDigit_toNat_range c h
  have hm : c ≠ '-' := fun he => absurd hr (by subst he; decide)
  have hp : c ≠ '(' := fun he => absurd hr (by subst he; decide)
  have hq : c ≠ ')' := fun he => absurd hr (by subst he; decide)
  unfold isStrippedChar
  rw [decide_eq_false_iff_not]
  rintro (ha | hb | hc | hd)
  · unfold isJsWhitespace at ha
    rw [decide_eq_true_eq] at ha
    omega
  · exact hm hb
  · exact hp hc
  · exact hq hd

theorem filter_keep_of_digits (l : List Char) (h : ∀ c ∈ l, c.isDigit = true) :
    l.filter (fun c => ! isStrippedChar c) = l :=
  List.filter_eq_self.mpr fun c hc => by
    rw [isStrippedChar_false_of_isDigit c (h c hc)]
    rfl

theorem stripLeadingPlus_cons_of_ne (c : Char) (r : List Char) (h : c ≠ '+') :
    stripLeadingPlus (c :: r) = c :: r := by
  unfold stripLeadingPlus
  split
  · rename_i rest heq
    injection heq with h1 h2
    exact absurd h1 h
  · rfl

theorem replaceLeadingZero_cons_of_ne (c : Char) (r : List Char) (h : c ≠ '0') :
    replaceLeadingZero (c :: r) = c :: r := by
  unfold replaceLeadingZero
  split
  · rename_i rest heq
    injection heq with h1 h2
    exact absurd h1 h
  · rfl

theorem stripLeadingPlus_of_digits (l : List Char) (h : ∀ c ∈ l, c.isDigit = true) :
    stripLeadingPlus l = l := by
  cases l with
  | nil => rfl
  | cons c r =>
    refine stripLeadingPlus_cons_of_ne c r fun he => ?_
    exact absurd (isDigit_toNat_range c (h c (List.mem_cons_self c r))) (by subst he; decide)

theorem replaceLeadingZero_of_head_ne (l : List Char) (h : l.head? ≠ some '0') :
    replaceLeadingZero l = l := by
  cases l with
  | nil => rfl
  | cons c r =>
    refine replaceLeadingZero_cons_of_ne c r fun he => ?_
    exact h (by rw [he]; rfl)

theorem pad254_of_start254 (l : List Char) (h : l.take 3 = ['2', '5', '4']) :
    pad254 l = l := by
  unfold pad254
  rw [if_neg (fun hc => hc.1 h)]

theorem pad254_of_nine (l : List Char) (h3 : l.take 3 ≠ ['2', '5', '4'])
    (h9 : l.length = 9) : pad254 l = '2' :: '5' :: '4' :: l := by
  unfold pad254
  rw [if_pos ⟨h3, h9⟩]

theorem filter_code_after_spec (l : List Char) :
    (l.filter (fun c => !(c == ' ' || c == '-' || c == '(' || c == ')'))).filter
      (fun c => ! isStrippedChar c) = l.filter (fun c => ! isStrippedChar c) := by
  rw [List.filter_filter]
  refine List.filter_congr fun a _ => ?_
  cases hp : isStrippedChar a with
  | true => simp [hp]
  | false =>
    have h1 : a ≠ ' ' := fun he => by rw [he] at hp; exact absurd hp (by decide)
    have h2 : a ≠ '-' := fun he => by rw [he] at hp; exact absurd hp (by decide)
    have h3 : a ≠ '(' := fun he => by rw [he] at hp; exact absurd hp (by decide)
    have h4 : a ≠ ')' := fun he => by rw [he] at hp; exact absurd hp (by decide)
    simp [hp, h1, h2, h3, h4]

/-- C1: the Salum provider's phone normalization maps the four quoted input
forms to the canonical `254712345678`; and, following the spec's step
order, it strips spaces/dashes/parentheses (normalization is invariant
under pre-stripping them), strips one leading `+`, replaces a leading `0`
by `254`, and left-pads `254` onto a 9-digit string that does not already
start with `254` (and, the earlier step having fired, does not start with
`0`). -/
theorem normalizePhoneNumber_spec :
    (normalizePhoneNumber "0712345678" = "254712345678" ∧
     normalizePhoneNumber "+254712345678" = "254712345678" ∧
     normalizePhoneNumber "254712345678" = "254712345678" ∧
     normalizePhoneNumber "712345678" = "254712345678") ∧
    (∀ s : String, normalizePhoneNumber (stripSeparatorsSpec s) = normalizePhoneNumber s) ∧
    (∀ s : String, (∀ c ∈ s.data, c.isDigit = true) →
      normalizePhoneNumber ("+" ++ s) = normalizePhoneNumber s) ∧
    (∀ (s : String) (rest : List Char), (∀ c ∈ s.data, c.isDigit = true) →
      s.data = '0' :: rest →
      normalizePhoneNumber s = String.mk ('2' :: '5' :: '4' :: rest)) ∧
    (∀ s : String, (∀ c ∈ s.data, c.isDigit = true) → s.data.length = 9 →
      s.data.take 3 ≠ ['2', '5', '4'] → s.data.head? ≠ some '0' →
      normalizePhoneNumber s = "254" ++ s) := by
  refine ⟨⟨by decide, by decide, by decide, by decide⟩, ?_, ?_, ?_, ?_⟩
  · intro s
    unfold normalizePhoneNumber stripSeparatorsSpec normalizePhoneCore
    dsimp only
    rw [filter_code_after_spec]
  · intro s h
    have hdata : ("+" ++ s).data = '+' :: s.data := by
      rw [String.data_append]
      rfl
    unfold normalizePhoneNumber normalizePhoneCore
    rw [hdata, List.filter_cons_of_pos (by decide), filter_keep_of_digits s.data h]
    rw [show stripLeadingPlus ('+' :: s.data) = s.data from rfl]
    rw [stripLeadingPlus_of_digits s.data h]
  · intro s rest h hdata
    unfold normalizePhoneNumber normalizePhoneCore
    rw [filter_keep_of_digits s.data h, hdata]
    rw [stripLeadingPlus_cons_of_ne '0' rest (by decide)]
    rw [show replaceLeadingZero ('0' :: rest) = '2' :: '5' :: '4' :: rest from rfl]
    rw [pad254_of_start254 ('2' :: '5' :: '4' :: rest) (by rfl)]
  · intro s h h9 h3 h0
    unfold normalizePhoneNumber normalizePhoneCore
    rw [filter_keep_of_digits s.data h]
    rw [stripLeadingPlus_of_digits s.data h]
    rw [replaceLeadingZero_of_head_ne s.data h0]
    rw [pad254_of_nine s.data h3 h9]
    refine String.ext ?_
    rw [String.data_append]
    rfl

/-- Witness for C1's general clauses at `712345678` (9 digits, no `254`
start, no leading `0`): the padding clause applies and agrees with the
concrete canonical form. -/
theorem normalizePhoneNumber_spec_witness :
    normalizePhoneNumber "712345678" = "254" ++ "712345678" :=
  normalizePhoneNumber_spec.2.2.2.2 "712345678" (by decide) (by decide) (by decide) (by decide)
